import Mathlib

/-!
# Verification of `scripts/register-oauth-client.py`

A shallow embedding of the OAuth-client registration script.  The script
performs two sequential HTTP POST calls (login, then client registration),
prints human-readable progress, and exits 0 on success or 1 on failure.

The embedding models:
* JSON values (`Json`), with Python truthiness, Python `str()` formatting,
  and Python `dict.get` semantics (an `AttributeError` when `.get` is
  invoked on a non-dict value);
* HTTP responses (`Response`) as a status code, the raw body text, and the
  result of parsing the body as JSON (`none` when the body is not JSON, in
  which case `resp.json()` raises a decode error);
* the functions `login` and `create_oauth_client` as `Except`-valued
  functions of the response they receive;
* the orchestration `main` as a pure function of the credentials and a
  network oracle `net : HttpRequest → Response`, returning the exit code,
  the ordered list of printed lines, and the ordered list of HTTP requests
  issued.
-/

set_option autoImplicit false

/-- JSON values, mirroring what Python's `json` module produces
(`null` ↔ `None`, objects ↔ `dict`, arrays ↔ `list`). -/
inductive Json where
  | null : Json
  | bool (b : Bool) : Json
  | num (n : Int) : Json
  | str (s : String) : Json
  | arr (items : List Json) : Json
  | obj (fields : List (String × Json)) : Json

namespace Json

mutual

/-- Python `repr` of a JSON-decoded value (`None`, `True`, quoted strings,
`[...]` lists, `{...}` dicts). -/
def pyRepr : Json → String
  | .null => "None"
  | .bool true => "True"
  | .bool false => "False"
  | .num n => toString n
  | .str s => "\x27" ++ s ++ "\x27"
  | .arr items => "[" ++ pyReprItems items ++ "]"
  | .obj fields => "\x7b" ++ pyReprFields fields ++ "\x7d"

/-- Comma-separated `repr`s of list items. -/
def pyReprItems : List Json → String
  | [] => ""
  | [x] => pyRepr x
  | x :: y :: rest => pyRepr x ++ ", " ++ pyReprItems (y :: rest)

/-- Comma-separated `repr`s of dict entries. -/
def pyReprFields : List (String × Json) → String
  | [] => ""
  | [(k, v)] => "\x27" ++ k ++ "\x27: " ++ pyRepr v
  | (k, v) :: p :: rest =>
      "\x27" ++ k ++ "\x27: " ++ pyRepr v ++ ", " ++ pyReprFields (p :: rest)

end

/-- Python `str()` of a JSON-decoded value, as used by f-string
interpolation: a string renders as itself, everything else as its `repr`. -/
def pyStr : Json → String
  | .str s => s
  | j => pyRepr j

/-- Python truthiness of a JSON-decoded value. -/
def truthy : Json → Bool
  | .null => false
  | .bool b => b
  | .num n => n != 0
  | .str s => s != ""
  | .arr items => !items.isEmpty
  | .obj fields => !fields.isEmpty

/-- Python type name, used in `AttributeError` messages. -/
def typeName : Json → String
  | .null => "NoneType"
  | .bool _ => "bool"
  | .num _ => "int"
  | .str _ => "str"
  | .arr _ => "list"
  | .obj _ => "dict"

end Json

/-- A raised Python exception, as observed by `main`'s `except` blocks. -/
inductive PyErr where
  | exc (msg : String) : PyErr
  | jsonDecode : PyErr
  | attrError (ty : String) : PyErr

/-- `str(e)` for a raised exception, as printed by `print(f"Error: {e}")`. -/
def PyErr.msg : PyErr → String
  | .exc m => m
  | .jsonDecode => "Expecting value: line 1 column 1 (char 0)"
  | .attrError ty => "\x27" ++ ty ++ "\x27 object has no attribute \x27get\x27"

namespace Json

/-- Python `value.get(key, default)`: on a dict, the value stored at `key`
(the default only when the key is absent); on any other value an
`AttributeError` is raised, since only dicts have a `.get` method. -/
def pyGetD : Json → String → Json → Except PyErr Json
  | .obj fields, k, d => .ok ((fields.lookup k).getD d)
  | j, _, _ => .error (.attrError j.typeName)

/-- Python `value.get(key)`: default `None`. -/
def pyGet (j : Json) (k : String) : Except PyErr Json :=
  j.pyGetD k .null

/-- Python `value[key]` on a dict whose key is present (the only way the
script uses `[]`: field accesses on the constant `OAUTH_CLIENT_CONFIG`). -/
def item (j : Json) (k : String) : Json :=
  match j with
  | .obj fields => (fields.lookup k).getD .null
  | _ => .null

end Json

/-- An HTTP response as seen through the `requests` API surface the script
uses: the status code, the raw body text, and the parse of the body as JSON
(`none` when the body is not valid JSON). -/
structure Response where
  status_code : Nat
  text : String
  body : Option Json

/-- `resp.json()`: the parsed body, or a raised decode error when the body
is not valid JSON. -/
def Response.json (r : Response) : Except PyErr Json :=
  match r.body with
  | some j => .ok j
  | none => .error .jsonDecode

/-- An HTTP POST request issued via `requests.post`. -/
structure HttpRequest where
  url : String
  headers : List (String × String)
  body : Json

/-- The fixed OAuth client configuration constant (`OAUTH_CLIENT_CONFIG`). -/
def OAUTH_CLIENT_CONFIG : Json :=
  .obj
    [ ("name", .str "Enclii CLI"),
      ("description",
        .str "Official Enclii command-line interface for deployment and management"),
      ("redirect_uris", .arr [.str "http://127.0.0.1/callback"]),
      ("allowed_scopes",
        .arr [.str "openid", .str "profile", .str "email", .str "offline_access"]),
      ("grant_types", .arr [.str "authorization_code", .str "refresh_token"]),
      ("is_confidential", .bool false),
      ("website_url", .str "https://enclii.dev") ]

/-- The default Janua API base URL: `os.getenv("JANUA_API_URL", ...)`
with the environment's value when set. -/
def JANUA_API (envValue : Option String) : String :=
  envValue.getD "https://api.janua.dev"

/-- The login request: `POST {base}/api/v1/auth/login` with the credentials
as a JSON body and no extra headers. -/
def loginRequest (base email password : String) : HttpRequest :=
  { url := base ++ "/api/v1/auth/login",
    headers := [],
    body := .obj [("email", .str email), ("password", .str password)] }

/-- `login`, lines 36-48 of the script, as a function of the response the
login endpoint returns.  On a non-200 status it raises
`Exception(f"Login failed: {error.get('message', resp.text)}")` where
`error = resp.json().get("error", {})`; on a 200 status it returns
`data.get("access_token") or data.get("token")` (Python `or`: the first
operand when truthy, otherwise the second). -/
def login (resp : Response) : Except PyErr Json :=
  if resp.status_code ≠ 200 then do
    let j ← resp.json
    let error ← j.pyGetD "error" (.obj [])
    let m ← error.pyGetD "message" (.str resp.text)
    Except.error (.exc ("Login failed: " ++ m.pyStr))
  else do
    let data ← resp.json
    let a ← data.pyGet "access_token"
    if a.truthy then pure a else data.pyGet "token"

/-- The registration request: `POST {base}/api/v1/oauth/clients` with
header `Authorization: Bearer {token}` (f-string interpolation of the value
`login` returned) and `OAUTH_CLIENT_CONFIG` as the JSON body. -/
def registerRequest (base : String) (token : Json) : HttpRequest :=
  { url := base ++ "/api/v1/oauth/clients",
    headers := [("Authorization", "Bearer " ++ token.pyStr)],
    body := OAUTH_CLIENT_CONFIG }

/-- `create_oauth_client`, lines 51-65 of the script, as a function of the
response the registration endpoint returns: 201 returns the parsed body,
409 raises `Exception("OAuth client already exists")`, anything else raises
`Exception(f"Failed to create client: {error.get('message', resp.text)}")`
with `error = resp.json().get("error", {})`. -/
def create_oauth_client (resp : Response) : Except PyErr Json :=
  if resp.status_code = 201 then resp.json
  else if resp.status_code = 409 then
    Except.error (.exc "OAuth client already exists")
  else do
    let j ← resp.json
    let error ← j.pyGetD "error" (.obj [])
    let m ← error.pyGetD "message" (.str resp.text)
    Except.error (.exc ("Failed to create client: " ++ m.pyStr))

/-- One printed line.  Fully literal prints are `text`; prints that
interpolate a run-time value keep that value structurally so that claims
about what was printed can be stated precisely; `render` recovers the
exact text. -/
inductive OutLine where
  | text (s : String) : OutLine
  | loggingIn (email : String) : OutLine
  | errLine (e : PyErr) : OutLine
  | clientId (v : Json) : OutLine
  | clientSecret (v : Json) : OutLine

/-- The exact text of a printed line. -/
def OutLine.render : OutLine → String
  | .text s => s
  | .loggingIn email => "Logging in as " ++ email ++ "..."
  | .errLine e => "Error: " ++ e.msg
  | .clientId v => "  client_id: " ++ v.pyStr
  | .clientSecret v => "  client_secret: " ++ v.pyStr

/-- The observable result of one run of the script: the process exit code,
the printed lines in order, and the HTTP requests issued in order. -/
structure RunResult where
  exitCode : Nat
  output : List OutLine
  requests : List HttpRequest

/-- Lines 69-71 and 82-83 of `main`: the banner, a blank line after the
(not modelled) credential prompts, and the `Logging in as ...` line. -/
def preLoginLines (email : String) : List OutLine :=
  [ .text "Enclii CLI OAuth Client Registration",
    .text "========================================",
    .text "",
    .text "",
    .loggingIn email ]

/-- Lines 92-97 of `main`: the configuration recap printed between the two
calls, interpolating fields of `OAUTH_CLIENT_CONFIG`. -/
def configLines : List OutLine :=
  [ .text "",
    .text "Creating OAuth client...",
    .text ("  Name: " ++ (OAUTH_CLIENT_CONFIG.item "name").pyStr),
    .text ("  Public client (PKCE): " ++
      (if !(OAUTH_CLIENT_CONFIG.item "is_confidential").truthy then "True" else "False")),
    .text ("  Scopes: " ++
      (match OAUTH_CLIENT_CONFIG.item "allowed_scopes" with
        | .arr items => String.intercalate ", " (items.map Json.pyStr)
        | _ => "")),
    .text "" ]

/-- Lines 99-115 of `main`: the `try` block around `create_oauth_client`
and the result printing, returning the lines it prints and the exit code
(1 when an exception reached the `except` block, 0 otherwise).  Note that
`client.get(...)` raises an `AttributeError` when the parsed 201 body is
not a dict, and that the secret block prints only when
`client.get('client_secret')` is truthy. -/
def registerTry (resp : Response) : List OutLine × Nat :=
  match create_oauth_client resp with
  | .error e => ([.errLine e], 1)
  | .ok client =>
    let created : List OutLine :=
      [.text "OAuth client created successfully!", .text "", .text "Client Details:"]
    match client.pyGet "client_id" with
    | .error e => (created ++ [.errLine e], 1)
    | .ok cid =>
      let withId := created ++ [.clientId cid]
      match client.pyGet "client_secret" with
      | .error e => (withId ++ [.errLine e], 1)
      | .ok secret =>
        let withSecret :=
          if secret.truthy then
            withId ++
              [ .clientSecret secret,
                .text "",
                .text "  NOTE: Save the client_secret now - it won\x27t be shown again!" ]
          else withId
        (withSecret ++
          [ .text "",
            .text "The enclii-cli OAuth client is now registered.",
            .text "Users can authenticate with: enclii login" ], 0)

/-- `main`, lines 68-115 of the script, with the credentials already
resolved (environment or prompt) and the network modelled as an oracle
from requests to responses.  Straight-line control flow: print the banner,
call `login`; on an exception print it and exit 1; otherwise print the
configuration recap, call `create_oauth_client`, and print the results,
exiting 1 if any exception reached the second `except` block. -/
def mainRun (base email password : String) (net : HttpRequest → Response) : RunResult :=
  let req1 := loginRequest base email password
  match login (net req1) with
  | .error e =>
      { exitCode := 1,
        output := preLoginLines email ++ [.errLine e],
        requests := [req1] }
  | .ok token =>
      let req2 := registerRequest base token
      let tr := registerTry (net req2)
      { exitCode := tr.2,
        output := preLoginLines email ++ [.text "Login successful"] ++ configLines ++ tr.1,
        requests := [req1, req2] }

/-! ## Helper lemmas -/

/-- The message the spec says a failed call carries: the structured
`error.message` from the body when present, otherwise the raw body text.
Stated for a response whose body parsed to the JSON object `kvs`. -/
def specErrorMessage (resp : Response) (kvs : List (String × Json)) : String :=
  match kvs.lookup "error" with
  | some (.obj ekvs) =>
      match ekvs.lookup "message" with
      | some v => v.pyStr
      | none => resp.text
  | _ => resp.text

/-- A structured error body: the `error` field is absent or is a JSON
object.  Outside this set, Python's `.get` on the `error` value raises an
`AttributeError` instead of building the documented message. -/
def structuredErrorOk (kvs : List (String × Json)) : Prop :=
  kvs.lookup "error" = none ∨ ∃ ekvs, kvs.lookup "error" = some (.obj ekvs)

lemma mainRun_login_error (base email password : String) (net : HttpRequest → Response)
    (e : PyErr) (h : login (net (loginRequest base email password)) = .error e) :
    mainRun base email password net =
      { exitCode := 1,
        output := preLoginLines email ++ [.errLine e],
        requests := [loginRequest base email password] } := by
  simp only [mainRun, h]

lemma mainRun_login_ok (base email password : String) (net : HttpRequest → Response)
    (t : Json) (h : login (net (loginRequest base email password)) = .ok t) :
    mainRun base email password net =
      { exitCode := (registerTry (net (registerRequest base t))).2,
        output := preLoginLines email ++ [.text "Login successful"] ++ configLines ++
          (registerTry (net (registerRequest base t))).1,
        requests := [loginRequest base email password, registerRequest base t] } := by
  simp only [mainRun, h]

lemma login_error_of_structured (resp : Response) (kvs : List (String × Json))
    (hst : resp.status_code ≠ 200) (hb : resp.body = some (.obj kvs))
    (herr : structuredErrorOk kvs) :
    login resp = .error (.exc ("Login failed: " ++ specErrorMessage resp kvs)) := by
  rcases herr with h | ⟨ekvs, h⟩
  · simp [login, Response.json, hb, hst, Json.pyGetD, h, specErrorMessage, Json.pyStr,
      Bind.bind, Except.bind]
  · cases hm : ekvs.lookup "message" <;>
      simp [login, Response.json, hb, hst, Json.pyGetD, h, hm, specErrorMessage, Json.pyStr,
        Bind.bind, Except.bind]

/-! ## Claim C1 -/

/-- Claim C1 as stated is refuted here: a 200 response whose
`access_token` field is present but empty makes `login` return the value
of `token` (`"X"`), not the value of the `access_token` field (`""`),
because Python `or` tests truthiness, not presence. -/
theorem login_access_token_falsy_counterexample :
    login ⟨200, "\x7b\x22access_token\x22: \x22\x22, \x22token\x22: \x22X\x22\x7d",
        some (.obj [("access_token", .str ""), ("token", .str "X")])⟩
      = .ok (.str "X")
    ∧ Json.str "X" ≠ Json.str "" := by
  refine ⟨rfl, fun h => ?_⟩
  injection h with h
  exact absurd h (by decide)

/-- Claim C1 (amended): for every 200 login response whose body is a JSON
object, `login` returns the value of `access_token` when that value is
truthy, and otherwise (absent, or present but falsy, e.g. empty) the value
of the `token` field (`None` when that too is absent). -/
theorem login_token_extraction (resp : Response) (kvs : List (String × Json))
    (h200 : resp.status_code = 200) (hb : resp.body = some (.obj kvs)) :
    login resp =
      .ok (if ((kvs.lookup "access_token").getD .null).truthy
            then (kvs.lookup "access_token").getD .null
            else (kvs.lookup "token").getD .null) := by
  cases ht : ((kvs.lookup "access_token").getD .null).truthy <;>
    simp [login, Response.json, hb, h200, Json.pyGet, Json.pyGetD, ht,
      Bind.bind, Except.bind, pure, Except.pure]

/-- Witness for C1's theorem: the spec's own example, a 200 response with
body `{"access_token": "T"}`, on which `login` returns `"T"`. -/
theorem login_token_extraction_witness :
    login ⟨200, "\x7b\x22access_token\x22: \x22T\x22\x7d",
        some (.obj [("access_token", .str "T")])⟩ = .ok (.str "T") :=
  login_token_extraction _ [("access_token", .str "T")] rfl rfl

/-! ## Claim C2 -/

/-- Claim C2 as stated is refuted here: a 401 response whose body is not
JSON (`"Service Unavailable"`) makes `login` raise the JSON decode error,
whose message is neither the raw body text nor `Login failed: ` followed
by it — `resp.json()` is called before any message is built. -/
theorem login_error_nonjson_counterexample :
    login ⟨401, "Service Unavailable", none⟩ = .error .jsonDecode
    ∧ PyErr.jsonDecode.msg ≠ "Service Unavailable"
    ∧ PyErr.jsonDecode.msg ≠ "Login failed: Service Unavailable" :=
  ⟨rfl, by decide, by decide⟩

/-- Claim C2 (amended): for every login response with non-200 status whose
body parses as a JSON object and whose `error` field, when present, is an
object, `login` fails with an exception carrying the server-provided
`error.message` when present and the raw body text otherwise. -/
theorem login_error_message (resp : Response) (kvs : List (String × Json))
    (hst : resp.status_code ≠ 200) (hb : resp.body = some (.obj kvs))
    (herr : structuredErrorOk kvs) :
    login resp = .error (.exc ("Login failed: " ++ specErrorMessage resp kvs)) :=
  login_error_of_structured resp kvs hst hb herr

/-- Witness for C2's theorem: the spec's own example, a 401 response with
body `{"error": {"message": "bad creds"}}` fails with that message. -/
theorem login_error_message_witness :
    login ⟨401, "\x7b\x22error\x22: \x7b\x22message\x22: \x22bad creds\x22\x7d\x7d",
        some (.obj [("error", .obj [("message", .str "bad creds")])])⟩
      = .error (.exc "Login failed: bad creds") := by
  have h := login_error_message
    ⟨401, "\x7b\x22error\x22: \x7b\x22message\x22: \x22bad creds\x22\x7d\x7d",
      some (.obj [("error", .obj [("message", .str "bad creds")])])⟩
    [("error", .obj [("message", .str "bad creds")])]
    (by decide) rfl (Or.inr ⟨[("message", .str "bad creds")], rfl⟩)
  simpa [specErrorMessage, Json.pyStr] using h

/-! ## Claim C3 -/

/-- Claim C3: for every registration response with status 201 whose body
parses, `create_oauth_client` returns the parsed client record unchanged
(so it includes the `client_id` and, when present, the `client_secret`). -/
theorem create_created_returns_record (resp : Response) (j : Json)
    (h201 : resp.status_code = 201) (hb : resp.body = some j) :
    create_oauth_client resp = .ok j := by
  simp [create_oauth_client, h201, Response.json, hb]

/-- Witness for C3's theorem: the spec's example, a 201 response with body
`{"client_id": "abc", "client_secret": "xyz"}`, is returned with both
fields. -/
theorem create_created_returns_record_witness :
    create_oauth_client
      ⟨201, "\x7b\x22client_id\x22: \x22abc\x22, \x22client_secret\x22: \x22xyz\x22\x7d",
        some (.obj [("client_id", .str "abc"), ("client_secret", .str "xyz")])⟩
      = .ok (.obj [("client_id", .str "abc"), ("client_secret", .str "xyz")]) :=
  create_created_returns_record _ _ rfl rfl

/-! ## Claim C4 -/

lemma registerTry_create_error (resp : Response) (e : PyErr)
    (h : create_oauth_client resp = .error e) :
    registerTry resp = ([.errLine e], 1) := by
  simp only [registerTry, h]

/-- Claim C4: a registration response with status 409 makes
`create_oauth_client` fail with the `OAuth client already exists`
exception, and the orchestration prints `Error: OAuth client already
exists` and exits with code 1. -/
theorem conflict_already_exists (base email password : String)
    (net : HttpRequest → Response) (t : Json)
    (hlogin : login (net (loginRequest base email password)) = .ok t)
    (h409 : (net (registerRequest base t)).status_code = 409) :
    create_oauth_client (net (registerRequest base t))
        = .error (.exc "OAuth client already exists")
    ∧ (mainRun base email password net).exitCode = 1
    ∧ OutLine.errLine (.exc "OAuth client already exists")
        ∈ (mainRun base email password net).output
    ∧ OutLine.render (.errLine (.exc "OAuth client already exists"))
        = "Error: OAuth client already exists" := by
  have hc : create_oauth_client (net (registerRequest base t))
      = .error (.exc "OAuth client already exists") := by
    simp [create_oauth_client, h409]
  have hm := mainRun_login_ok base email password net t hlogin
  have hr := registerTry_create_error _ _ hc
  refine ⟨hc, ?_, ?_, rfl⟩
  · rw [hm]; simp [hr]
  · rw [hm]; simp [hr, List.mem_append]

/-- A network oracle whose login endpoint succeeds and whose registration
endpoint reports a conflict (the script's two requests are told apart by
their headers: only the registration request carries one). -/
def conflictNet : HttpRequest → Response := fun r =>
  if r.headers.isEmpty then
    ⟨200, "\x7b\x22access_token\x22: \x22T\x22\x7d", some (.obj [("access_token", .str "T")])⟩
  else ⟨409, "\x7b\x7d", some (.obj [])⟩

/-- Witness for C4's theorem at the concrete oracle `conflictNet`. -/
theorem conflict_already_exists_witness :
    (mainRun "https://api.janua.dev" "admin@madfam.io" "pw" conflictNet).exitCode = 1
    ∧ OutLine.errLine (.exc "OAuth client already exists")
        ∈ (mainRun "https://api.janua.dev" "admin@madfam.io" "pw" conflictNet).output :=
  have h := conflict_already_exists "https://api.janua.dev" "admin@madfam.io" "pw"
    conflictNet (.str "T") rfl rfl
  ⟨h.2.1, h.2.2.1⟩

/-! ## Claim C5 -/

lemma create_error_of_structured (resp : Response) (kvs : List (String × Json))
    (hst1 : resp.status_code ≠ 201) (hst2 : resp.status_code ≠ 409)
    (hb : resp.body = some (.obj kvs)) (herr : structuredErrorOk kvs) :
    create_oauth_client resp
      = .error (.exc ("Failed to create client: " ++ specErrorMessage resp kvs)) := by
  rcases herr with h | ⟨ekvs, h⟩
  · simp [create_oauth_client, Response.json, hb, hst1, hst2, Json.pyGetD, h,
      specErrorMessage, Json.pyStr, Bind.bind, Except.bind]
  · cases hm : ekvs.lookup "message" <;>
      simp [create_oauth_client, Response.json, hb, hst1, hst2, Json.pyGetD, h, hm,
        specErrorMessage, Json.pyStr, Bind.bind, Except.bind]

/-- A network oracle whose login endpoint succeeds and whose registration
endpoint returns a 500 whose body `boom` is not JSON at all. -/
def plainBodyNet : HttpRequest → Response := fun r =>
  if r.headers.isEmpty then
    ⟨200, "\x7b\x22access_token\x22: \x22T\x22\x7d", some (.obj [("access_token", .str "T")])⟩
  else ⟨500, "boom", none⟩

/-- Claim C5 as stated is refuted here: on a 500 registration response
with no structured error body — here the non-JSON body `boom` — the
orchestration exits 1 but does *not* surface the raw body text: it prints
the JSON decode error raised by `resp.json()`, and no printed line reads
`Error: Failed to create client: boom`. -/
theorem registration_error_nonjson_counterexample :
    (mainRun "https://api.janua.dev" "a@b" "pw" plainBodyNet).exitCode = 1
    ∧ (mainRun "https://api.janua.dev" "a@b" "pw" plainBodyNet).output =
        [ .text "Enclii CLI OAuth Client Registration",
          .text "========================================",
          .text "",
          .text "",
          .loggingIn "a@b",
          .text "Login successful",
          .text "",
          .text "Creating OAuth client...",
          .text "  Name: Enclii CLI",
          .text "  Public client (PKCE): True",
          .text "  Scopes: openid, profile, email, offline_access",
          .text "",
          .errLine .jsonDecode ]
    ∧ (∀ l ∈ (mainRun "https://api.janua.dev" "a@b" "pw" plainBodyNet).output,
        OutLine.render l ≠ "Error: Failed to create client: boom") :=
  ⟨rfl, rfl, by decide⟩

/-- Claim C5 (amended): for every registration response whose status is
neither 201 nor 409 and whose body parses as a JSON object whose `error`
field, when present, is an object, `create_oauth_client` fails with an
exception carrying the server-provided `error.message` when present and
the raw body text otherwise, and the orchestration prints that exception
and exits with code 1. -/
theorem registration_error_message (base email password : String)
    (net : HttpRequest → Response) (t : Json) (kvs : List (String × Json))
    (hlogin : login (net (loginRequest base email password)) = .ok t)
    (hst1 : (net (registerRequest base t)).status_code ≠ 201)
    (hst2 : (net (registerRequest base t)).status_code ≠ 409)
    (hb : (net (registerRequest base t)).body = some (.obj kvs))
    (herr : structuredErrorOk kvs) :
    create_oauth_client (net (registerRequest base t))
      = .error (.exc ("Failed to create client: "
          ++ specErrorMessage (net (registerRequest base t)) kvs))
    ∧ (mainRun base email password net).exitCode = 1
    ∧ OutLine.errLine (.exc ("Failed to create client: "
          ++ specErrorMessage (net (registerRequest base t)) kvs))
        ∈ (mainRun base email password net).output := by
  have hc := create_error_of_structured _ kvs hst1 hst2 hb herr
  have hm := mainRun_login_ok base email password net t hlogin
  have hr := registerTry_create_error _ _ hc
  refine ⟨hc, ?_, ?_⟩
  · rw [hm]; simp [hr]
  · rw [hm]; simp [hr, List.mem_append]

/-- A network oracle whose login endpoint succeeds and whose registration
endpoint returns a 500 whose JSON body carries no `error` object, so the
raw body text is all there is to report. -/
def rawBodyNet : HttpRequest → Response := fun r =>
  if r.headers.isEmpty then
    ⟨200, "\x7b\x22access_token\x22: \x22T\x22\x7d", some (.obj [("access_token", .str "T")])⟩
  else ⟨500, "upstream exploded", some (.obj [])⟩

/-- Witness for C5's theorem at the concrete oracle `rawBodyNet`: the raw
body text is surfaced and the exit code is 1. -/
theorem registration_error_message_witness :
    (mainRun "https://api.janua.dev" "a@b" "pw" rawBodyNet).exitCode = 1
    ∧ OutLine.errLine (.exc "Failed to create client: upstream exploded")
        ∈ (mainRun "https://api.janua.dev" "a@b" "pw" rawBodyNet).output :=
  have h := registration_error_message "https://api.janua.dev" "a@b" "pw" rawBodyNet
    (.str "T") [] rfl (by decide) (by decide) rfl (Or.inl rfl)
  ⟨h.2.1, h.2.2⟩

/-! ## Claim C6 -/

lemma login_url_ne_clients_url (base email password : String) :
    (loginRequest base email password).url ≠ base ++ "/api/v1/oauth/clients" := by
  intro h
  have hlen := congrArg String.length h
  simp only [loginRequest, String.length_append] at hlen
  rw [show ("/api/v1/auth/login" : String).length = 18 from rfl,
    show ("/api/v1/oauth/clients" : String).length = 21 from rfl] at hlen
  omega

/-- Claim C6: every request the run sends to the client-registration
endpoint carries exactly the fixed constant `OAUTH_CLIENT_CONFIG` as its
JSON body, whose fields are the fixed name, single redirect URI, four
scopes, two grant types, `is_confidential = false` and website URL. -/
theorem fixed_registration_payload (base email password : String)
    (net : HttpRequest → Response) (r : HttpRequest)
    (hr : r ∈ (mainRun base email password net).requests)
    (hurl : r.url = base ++ "/api/v1/oauth/clients") :
    r.body = OAUTH_CLIENT_CONFIG
    ∧ OAUTH_CLIENT_CONFIG.item "name" = .str "Enclii CLI"
    ∧ OAUTH_CLIENT_CONFIG.item "redirect_uris" = .arr [.str "http://127.0.0.1/callback"]
    ∧ OAUTH_CLIENT_CONFIG.item "allowed_scopes"
        = .arr [.str "openid", .str "profile", .str "email", .str "offline_access"]
    ∧ OAUTH_CLIENT_CONFIG.item "grant_types"
        = .arr [.str "authorization_code", .str "refresh_token"]
    ∧ OAUTH_CLIENT_CONFIG.item "is_confidential" = .bool false
    ∧ OAUTH_CLIENT_CONFIG.item "website_url" = .str "https://enclii.dev" := by
  refine ⟨?_, rfl, rfl, rfl, rfl, rfl, rfl⟩
  cases hl : login (net (loginRequest base email password)) with
  | error e =>
      rw [mainRun_login_error base email password net e hl] at hr
      simp only [List.mem_singleton] at hr
      subst hr
      exact absurd hurl (login_url_ne_clients_url base email password)
  | ok t =>
      rw [mainRun_login_ok base email password net t hl] at hr
      simp only [List.mem_cons, List.not_mem_nil, or_false] at hr
      rcases hr with hr | hr
      · subst hr
        exact absurd hurl (login_url_ne_clients_url base email password)
      · subst hr; rfl

/-- A network oracle for the happy path: login succeeds with token `T`,
registration succeeds with a client id and secret. -/
def happyNet : HttpRequest → Response := fun r =>
  if r.headers.isEmpty then
    ⟨200, "\x7b\x22access_token\x22: \x22T\x22\x7d", some (.obj [("access_token", .str "T")])⟩
  else
    ⟨201, "\x7b\x22client_id\x22: \x22abc\x22, \x22client_secret\x22: \x22xyz\x22\x7d",
      some (.obj [("client_id", .str "abc"), ("client_secret", .str "xyz")])⟩

/-- Witness for C6's theorem: the registration request of a happy-path run
carries exactly `OAUTH_CLIENT_CONFIG`. -/
theorem fixed_registration_payload_witness :
    (registerRequest "https://api.janua.dev" (.str "T")).body = OAUTH_CLIENT_CONFIG :=
  (fixed_registration_payload "https://api.janua.dev" "a@b" "pw" happyNet
    (registerRequest "https://api.janua.dev" (.str "T"))
    (List.Mem.tail _ (List.Mem.head _)) rfl).1

/-! ## Claim C7 -/

lemma registerTry_ok_obj (resp : Response) (kvs : List (String × Json))
    (h : create_oauth_client resp = .ok (.obj kvs)) :
    registerTry resp =
      ([.text "OAuth client created successfully!", .text "", .text "Client Details:",
        .clientId ((kvs.lookup "client_id").getD .null)] ++
       (if ((kvs.lookup "client_secret").getD .null).truthy then
          [.clientSecret ((kvs.lookup "client_secret").getD .null),
           .text "",
           .text "  NOTE: Save the client_secret now - it won\x27t be shown again!"]
        else []) ++
       [.text "", .text "The enclii-cli OAuth client is now registered.",
        .text "Users can authenticate with: enclii login"], 0) := by
  cases ht : ((kvs.lookup "client_secret").getD .null).truthy <;>
    simp [registerTry, h, Json.pyGet, Json.pyGetD, ht]

lemma registerTry_ok_nonobj (resp : Response) (j : Json)
    (h : create_oauth_client resp = .ok j) (hno : ∀ kvs, j ≠ .obj kvs) :
    registerTry resp =
      ([.text "OAuth client created successfully!", .text "", .text "Client Details:",
        .errLine (.attrError j.typeName)], 1) := by
  cases j with
  | obj kvs => exact absurd rfl (hno kvs)
  | null => simp [registerTry, h, Json.pyGet, Json.pyGetD, Json.typeName]
  | bool b => simp [registerTry, h, Json.pyGet, Json.pyGetD, Json.typeName]
  | num n => simp [registerTry, h, Json.pyGet, Json.pyGetD, Json.typeName]
  | str s => simp [registerTry, h, Json.pyGet, Json.pyGetD, Json.typeName]
  | arr items => simp [registerTry, h, Json.pyGet, Json.pyGetD, Json.typeName]

lemma errLine_mem_out (l1 l2 l3 : List OutLine) (a b c : OutLine) (e : PyErr) :
    OutLine.errLine e ∈ l1 ++ l2 ++ l3 ++ [a, b, c, OutLine.errLine e] := by
  simp [List.mem_append]

/-- Claim C7: every run exits with code 0 or 1; it exits 0 exactly when
the login call succeeded and the registration call returned a parsed
client record (a JSON object); whenever it exits 1, an `Error: ...` line
was printed. -/
theorem exit_code_spec (base email password : String) (net : HttpRequest → Response) :
    ((mainRun base email password net).exitCode = 0
      ∨ (mainRun base email password net).exitCode = 1)
    ∧ ((mainRun base email password net).exitCode = 0 ↔
        ∃ t kvs, login (net (loginRequest base email password)) = .ok t
          ∧ create_oauth_client (net (registerRequest base t)) = .ok (.obj kvs))
    ∧ ((mainRun base email password net).exitCode = 1 →
        ∃ e, OutLine.errLine e ∈ (mainRun base email password net).output) := by
  cases hl : login (net (loginRequest base email password)) with
  | error e =>
      rw [mainRun_login_error base email password net e hl]
      refine ⟨Or.inr rfl, ⟨fun h => by simp at h, fun h => ?_⟩,
        fun _ => ⟨e, by simp [List.mem_append]⟩⟩
      rcases h with ⟨t, kvs, hok, -⟩
      exact Except.noConfusion hok
  | ok t =>
      rw [mainRun_login_ok base email password net t hl]
      cases hc : create_oauth_client (net (registerRequest base t)) with
      | error e =>
          rw [registerTry_create_error _ _ hc]
          refine ⟨Or.inr rfl, ⟨fun h => by simp at h, fun h => ?_⟩,
            fun _ => ⟨e, by simp [List.mem_append]⟩⟩
          rcases h with ⟨t2, kvs, hok, hok2⟩
          injection hok with hok
          subst hok
          rw [hc] at hok2
          exact Except.noConfusion hok2
      | ok j =>
          cases j
          case obj kvs =>
            rw [registerTry_ok_obj _ kvs hc]
            exact ⟨Or.inl rfl, ⟨fun _ => ⟨t, kvs, rfl, hc⟩, fun _ => rfl⟩,
              fun h => by simp at h⟩
          all_goals
          · rw [registerTry_ok_nonobj _ _ hc (fun kvs h => Json.noConfusion h)]
            refine ⟨Or.inr rfl, ⟨fun h => by simp at h, fun h => ?_⟩,
              fun _ => ⟨_, errLine_mem_out _ _ _ _ _ _ _⟩⟩
            rcases h with ⟨t2, kvs, hok, hok2⟩
            injection hok with hok
            subst hok
            rw [hc] at hok2
            injection hok2 with hok2
            exact Json.noConfusion hok2

/-- Witness for C7's theorem: on the happy path the exit code is 0, and on
an authentication failure it is 1.  The `Prop`-valued hypotheses of the
theorem are trivial (there are none), so the witness just instantiates it
at a concrete oracle and extracts the decidable facts. -/
theorem exit_code_spec_witness :
    (mainRun "https://api.janua.dev" "a@b" "pw" happyNet).exitCode = 0 :=
  (exit_code_spec "https://api.janua.dev" "a@b" "pw" happyNet).2.1.mpr
    ⟨.str "T", [("client_id", .str "abc"), ("client_secret", .str "xyz")], rfl, rfl⟩

/-! ## Claim C8 -/

/-- Recognises the one print statement that displays the client secret. -/
def isSecretLine : OutLine → Bool
  | .clientSecret _ => true
  | _ => false

/-- Claim C8: in a successful run (login ok, registration 201 with a JSON
object body) the orchestration prints the client identifier; the client
secret line is printed exactly once when the record carries a truthy
(non-empty) `client_secret` and never otherwise, and when it is printed it
comes with the one-time-disclosure NOTE warning.  The final conjunct ties
truthiness to non-emptiness for string-valued secrets. -/
theorem secret_printed_once (base email password : String)
    (net : HttpRequest → Response) (t : Json) (kvs : List (String × Json))
    (hlogin : login (net (loginRequest base email password)) = .ok t)
    (h201 : (net (registerRequest base t)).status_code = 201)
    (hb : (net (registerRequest base t)).body = some (.obj kvs)) :
    (mainRun base email password net).exitCode = 0
    ∧ OutLine.clientId ((kvs.lookup "client_id").getD .null)
        ∈ (mainRun base email password net).output
    ∧ ((mainRun base email password net).output.countP (fun l => isSecretLine l))
        = (if ((kvs.lookup "client_secret").getD .null).truthy then 1 else 0)
    ∧ (((kvs.lookup "client_secret").getD .null).truthy →
        OutLine.clientSecret ((kvs.lookup "client_secret").getD .null)
            ∈ (mainRun base email password net).output
        ∧ OutLine.text "  NOTE: Save the client_secret now - it won\x27t be shown again!"
            ∈ (mainRun base email password net).output)
    ∧ (∀ s, kvs.lookup "client_secret" = some (Json.str s) →
        (((kvs.lookup "client_secret").getD .null).truthy ↔ s ≠ "")) := by
  have hc : create_oauth_client (net (registerRequest base t)) = .ok (.obj kvs) := by
    simp [create_oauth_client, h201, Response.json, hb]
  have hm := mainRun_login_ok base email password net t hlogin
  have hr := registerTry_ok_obj _ kvs hc
  rw [hm, hr]
  refine ⟨rfl, ?_, ?_, fun htr => ⟨?_, ?_⟩, fun s hs => ?_⟩
  · simp [List.mem_append]
  · cases htr : ((kvs.lookup "client_secret").getD .null).truthy <;>
      simp [htr, preLoginLines, configLines, List.countP_append, List.countP_cons,
        isSecretLine]
  · simp [htr, List.mem_append]
  · simp [htr, List.mem_append]
  · rw [hs]
    simp [Json.truthy]

/-- Witness for C8's theorem: the spec's example run (201 with
`{"client_id": "abc", "client_secret": "xyz"}`) exits 0 and prints the
secret line exactly once. -/
theorem secret_printed_once_witness :
    (mainRun "https://api.janua.dev" "a@b" "pw" happyNet).exitCode = 0
    ∧ ((mainRun "https://api.janua.dev" "a@b" "pw" happyNet).output.countP
        (fun l => isSecretLine l)) = 1 :=
  have h := secret_printed_once "https://api.janua.dev" "a@b" "pw" happyNet (.str "T")
    [("client_id", .str "abc"), ("client_secret", .str "xyz")] rfl rfl rfl
  ⟨h.1, h.2.2.1⟩

/-! ## Claim C9 -/

/-- Claim C9: the run is strictly sequential with no retries: either the
login call failed and the request trace is exactly the one login request,
or the login call succeeded with some token and the trace is exactly the
login request followed by one registration request.  In particular the
registration endpoint is never contacted when authentication fails and no
endpoint is ever called twice. -/
theorem sequential_requests (base email password : String)
    (net : HttpRequest → Response) :
    ((mainRun base email password net).requests = [loginRequest base email password]
      ∧ ∃ e, login (net (loginRequest base email password)) = .error e)
    ∨ (∃ t, login (net (loginRequest base email password)) = .ok t
      ∧ (mainRun base email password net).requests
          = [loginRequest base email password, registerRequest base t]) := by
  cases hl : login (net (loginRequest base email password)) with
  | error e =>
      exact Or.inl ⟨by rw [mainRun_login_error base email password net e hl], e, rfl⟩
  | ok t =>
      exact Or.inr ⟨t, rfl, by rw [mainRun_login_ok base email password net t hl]⟩

/-! ## Claim C10 -/

/-- Claim C10: a 200 login response whose JSON object body has neither an
`access_token` nor a `token` field makes `login` return Python `None`
without failing, and the orchestration then calls the registration
endpoint with the header `Authorization: Bearer None`. -/
theorem bearer_none_token (base email password txt : String)
    (net : HttpRequest → Response) (kvs : List (String × Json))
    (hnet : net (loginRequest base email password) = ⟨200, txt, some (.obj kvs)⟩)
    (ha : kvs.lookup "access_token" = none)
    (ht : kvs.lookup "token" = none) :
    login (net (loginRequest base email password)) = .ok .null
    ∧ (mainRun base email password net).requests
        = [loginRequest base email password, registerRequest base .null]
    ∧ (registerRequest base Json.null).headers = [("Authorization", "Bearer None")] := by
  have hlog : login (net (loginRequest base email password)) = .ok .null := by
    rw [hnet]
    simp [login, Response.json, Json.pyGet, Json.pyGetD, ha, ht, Json.truthy,
      Bind.bind, Except.bind]
  exact ⟨hlog, by rw [mainRun_login_ok base email password net .null hlog], rfl⟩

/-- A network oracle whose login endpoint answers 200 with the empty JSON
object, so no token field is present at all. -/
def tokenlessNet : HttpRequest → Response := fun _ => ⟨200, "\x7b\x7d", some (.obj [])⟩

/-- Witness for C10's theorem: with `tokenlessNet` the run really does
proceed to the registration endpoint with a `Bearer None` header. -/
theorem bearer_none_token_witness :
    (mainRun "https://api.janua.dev" "a@b" "pw" tokenlessNet).requests
      = [loginRequest "https://api.janua.dev" "a@b" "pw",
         registerRequest "https://api.janua.dev" Json.null]
    ∧ (registerRequest "https://api.janua.dev" Json.null).headers
      = [("Authorization", "Bearer None")] :=
  have h := bearer_none_token "https://api.janua.dev" "a@b" "pw" "\x7b\x7d"
    tokenlessNet [] rfl rfl rfl
  ⟨h.2.1, h.2.2⟩
